import Mathlib

/-!
Verification of the credential-and-session lifecycle engine of the
`my-backend` service, shallowly embedded in Lean 4.

Pure translation conventions:
* time is in milliseconds (`Nat`);
* the Argon2id hasher (`src/utils/password.ts`) is modelled deterministically:
  a digest of secret `s` is the string `argonTag ++ s`; `argon2.verify` throws
  on a digest that does not carry the tag (malformed) and otherwise reports
  whether the encoded secret equals the supplied one — this matches the
  library contract (verify of a real digest succeeds exactly on the hashed
  secret, and raises on malformed input);
* `async` functions that can `throw` are embedded as `Except`-valued
  functions; `try`/`catch` blocks are explicit `match`es on the body;
* the Mongo stores are association lists keyed by document id, and
  `document.save()` is an in-place replacement of the keyed entry.
-/

namespace MyBackend

abbrev Time := Nat

/-- Model of JavaScript `toLowerCase()` (character-wise lowering). -/
def strToLower (s : String) : String := ⟨s.data.map Char.toLower⟩

/-! ## Credential hasher (`src/utils/password.ts`) -/

/-- Tag every modelled Argon2id digest carries (stands for the
`$argon2id$v=19$...` parameter header of a real digest). -/
def argonTag : String := "$argon2id$"

/-- Model of `argon2.hash` (deterministic: the salt is dropped). -/
def argonHash (secret : String) : String := argonTag ++ secret

/-- A digest is well-formed when it carries the Argon2id header. -/
def argonWellFormed (digest : String) : Bool :=
  argonTag.data.isPrefixOf digest.data

/-- Model of `argon2.verify`: a digest without the Argon2id header is
malformed and makes the library throw; a well-formed digest matches exactly
the secret it encodes. -/
def argon2verify (digest secret : String) : Except String Bool :=
  if argonWellFormed digest then
    Except.ok (digest = argonTag ++ secret)
  else
    Except.error "pchstr must contain a $ as first char"

/-- `try` body of `hashPassword` (src/utils/password.ts:168-183): reject the
empty password and any password shorter than 8 characters, then hash. -/
def hashPasswordTry (plainPassword : String) : Except String String :=
  if plainPassword.length = 0 then
    Except.error "Password cannot be empty"
  else if plainPassword.length < 8 then
    Except.error "Password must be at least 8 characters long"
  else
    Except.ok (argonHash plainPassword)

/-- `hashPassword`: the body above with the `catch` that rewraps the
message. -/
def hashPassword (plainPassword : String) : Except String String :=
  match hashPasswordTry plainPassword with
  | Except.ok h => Except.ok h
  | Except.error e => Except.error ("Password hashing failed: " ++ e)

/-- `try` body of `hashTokenForDatabase` (src/utils/password.ts:258-269):
reject a token that is falsy or shorter than 10 characters, then hash. -/
def hashTokenForDatabaseTry (token : String) : Except String String :=
  if token = "" ∨ token.length < 10 then
    Except.error "Token must be at least 10 characters long"
  else
    Except.ok (argonHash token)

/-- `hashTokenForDatabase`: the body above with the `catch` that rewraps the
message. -/
def hashTokenForDatabase (token : String) : Except String String :=
  match hashTokenForDatabaseTry token with
  | Except.ok h => Except.ok h
  | Except.error e => Except.error ("Token hashing failed: " ++ e)

/-- `try` body of `verifyPassword` (src/utils/password.ts:200-215): empty
digest or empty password short-circuit to `false`; otherwise defer to
`argon2.verify`, whose exceptions propagate to the `catch`. -/
def verifyPasswordTry (hashedPassword plainPassword : String) : Except String Bool :=
  if hashedPassword = "" ∨ plainPassword = "" then
    Except.ok false
  else
    argon2verify hashedPassword plainPassword

/-- `verifyPassword`: the body above under a catch-all that returns `false`,
so the function is total and `Bool`-valued (it never throws). -/
def verifyPassword (hashedPassword plainPassword : String) : Bool :=
  match verifyPasswordTry hashedPassword plainPassword with
  | Except.ok b => b
  | Except.error _ => false

/-- `try` body of `verifyTokenHash` (src/utils/password.ts:297-312), same
shape as `verifyPasswordTry`. -/
def verifyTokenHashTry (hashedToken token : String) : Except String Bool :=
  if hashedToken = "" ∨ token = "" then
    Except.ok false
  else
    argon2verify hashedToken token

/-- `verifyTokenHash`: the body above under a catch-all that returns
`false`. -/
def verifyTokenHash (hashedToken token : String) : Bool :=
  match verifyTokenHashTry hashedToken token with
  | Except.ok b => b
  | Except.error _ => false

/-! ## Token codec (`src/utils/jwt.ts`) -/

def accessTokenExpiryMs : Nat := 15 * 60 * 1000

def refreshTokenExpiryMs : Nat := 7 * 24 * 60 * 60 * 1000

/-- Claims of a refresh token (`RefreshTokenPayload`). -/
structure RefreshClaims where
  userId : String
  sessionId : String
  exp : Time
deriving DecidableEq, Repr

/-- Claims of an access token (`AccessTokenPayload`). -/
structure AccessClaims where
  userId : String
  email : String
  sessionId : String
  exp : Time
deriving DecidableEq, Repr

/-- A JWT string, modelled by its verified content: a token signed with the
server secret decodes to its claims, anything else is an opaque invalid
string. -/
inductive Jwt where
  | refreshSigned (c : RefreshClaims)
  | accessSigned (c : AccessClaims)
  | invalid (s : String)
deriving DecidableEq, Repr

/-- `signRefreshToken(userId, sessionId)` with `expiresIn = 7d`. -/
def signRefreshToken (userId sessionId : String) (now : Time) : Jwt :=
  Jwt.refreshSigned ⟨userId, sessionId, now + refreshTokenExpiryMs⟩

/-- `signAccessToken(userId, email, sessionId)` with `expiresIn = 15m`. -/
def signAccessToken (userId email sessionId : String) (now : Time) : Jwt :=
  Jwt.accessSigned ⟨userId, email, sessionId, now + accessTokenExpiryMs⟩

/-- `verifyRefreshToken` (src/utils/jwt.ts:267-287): a token signed with the
server secret verifies while unexpired; an expired or foreign token throws. -/
def verifyRefreshToken (token : Jwt) (now : Time) : Except String RefreshClaims :=
  match token with
  | Jwt.refreshSigned c =>
      if c.exp ≤ now then Except.error "Refresh token has expired"
      else Except.ok c
  | _ => Except.error "Invalid refresh token"

/-! ## Stored refresh-token hashes

`Session.refreshToken` holds either the string `'temp'` (the placeholder the
OAuth flows write before binding) or an Argon2id digest of a JWT string.
Distinct `Jwt` values have distinct serializations (different signed
payloads), so `hashTokenForDatabase`/`verifyTokenHash` composed over JWT
strings behave as below: verification of a real digest succeeds exactly on
the hashed token, and the `'temp'` placeholder is a malformed digest on
which `argon2.verify` throws and the wrapper returns `false`. -/

inductive StoredHash where
  | temp
  | hashOf (t : Jwt)
deriving DecidableEq, Repr

/-- Flow-level `hashTokenForDatabase` on a JWT (JWT strings are far longer
than 10 characters, so the length guard never fires). -/
def hashTokenForDatabaseJwt (t : Jwt) : StoredHash := StoredHash.hashOf t

/-- Flow-level `verifyTokenHash` on a stored hash and a presented JWT. -/
def verifyTokenHashJwt : StoredHash → Jwt → Bool
  | StoredHash.temp, _ => false
  | StoredHash.hashOf t, t2 => t = t2

/-! ## Data model (`src/models/Account.ts`, `Session.ts`, `Device.ts`, `User.ts`) -/

inductive BanKind where
  | temporary
  | permanent
deriving DecidableEq, Repr

/-- One linked OAuth provider (`IOAuthProvider`). -/
structure ProviderRec where
  provider : String
  providerId : String
  providerEmail : String
  linkedAt : Time
  lastLogin : Option Time
deriving DecidableEq, Repr

/-- An `accounts` document. `password` is `none` for OAuth-only accounts;
ban state is the `ban.type`/`ban.endAt` pair of the `BanSchema`. -/
structure AccountRec where
  userId : String
  email : String
  password : Option String
  isActive : Bool
  isEmailVerified : Bool
  isPhoneVerified : Bool
  banType : Option BanKind
  banEndAt : Option Time
  loginAttempts : Nat
  lastAttemptAt : Option Time
  lockUntil : Option Time
  providers : List ProviderRec
  emailVerificationToken : Option String
  emailVerificationTokenExpiresAt : Option Time
  resetToken : Option String
  resetTokenExpiresAt : Option Time
deriving DecidableEq, Repr

/-- `AccountSchema.methods.isBanned` (src/models/Account.ts:177-188). -/
def AccountRec.isBanned (a : AccountRec) (now : Time) : Bool :=
  match a.banType with
  | none => false
  | some BanKind.permanent => true
  | some BanKind.temporary =>
      match a.banEndAt with
      | some endAt => now < endAt
      | none => false

/-- `AccountSchema.methods.isLocked` (src/models/Account.ts:190-193). -/
def AccountRec.isLocked (a : AccountRec) (now : Time) : Bool :=
  match a.lockUntil with
  | none => false
  | some lockUntil => now < lockUntil

def maxLoginAttempts : Nat := 5

def lockDurationMinutes : Nat := 30

/-- `AccountSchema.methods.incrementLoginAttempts`
(src/models/Account.ts:195-208): bump the counter and the attempt time;
on reaching `maxAttempts` (default 5) lock for `lockDuration` (default 30)
minutes via `lockAccount`. -/
def AccountRec.incrementLoginAttempts (a : AccountRec) (now : Time) : AccountRec :=
  let a1 := { a with loginAttempts := a.loginAttempts + 1, lastAttemptAt := some now }
  if maxLoginAttempts ≤ a1.loginAttempts then
    { a1 with lockUntil := some (now + lockDurationMinutes * 60 * 1000) }
  else
    a1

/-- `AccountSchema.methods.resetLoginAttempts`
(src/models/Account.ts:210-215). -/
def AccountRec.resetLoginAttempts (a : AccountRec) : AccountRec :=
  { a with loginAttempts := 0, lastAttemptAt := none, lockUntil := none }

/-- `AccountSchema.methods.hasPassword` (src/models/Account.ts:303-305). -/
def AccountRec.hasPassword (a : AccountRec) : Bool :=
  a.password.isSome

/-- Replace the first list element satisfying `p` by `f` of it (the
`findIndex`-then-assign idiom of the source). -/
def updateFirst {α : Type} (p : α → Bool) (f : α → α) : List α → List α
  | [] => []
  | x :: xs => if p x then f x :: xs else x :: updateFirst p f xs

/-- `AccountSchema.methods.addProvider` (src/models/Account.ts:273-289):
replace an existing entry for the same provider, else append. -/
def AccountRec.addProvider (a : AccountRec) (p : ProviderRec) : AccountRec :=
  if a.providers.any (fun q => q.provider = p.provider) then
    { a with providers := updateFirst (fun q => q.provider = p.provider) (fun _ => p) a.providers }
  else
    { a with providers := a.providers ++ [p] }

/-- `AccountSchema.methods.hasProvider` (src/models/Account.ts:298-301). -/
def AccountRec.hasProvider (a : AccountRec) (provider : String) : Bool :=
  a.providers.any (fun q => q.provider = provider)

/-- A `sessions` document (the fields the engine reads or writes). -/
structure SessionRec where
  userId : String
  deviceId : String
  refreshToken : StoredHash
  isActive : Bool
  lastLogin : Time
  expiresAt : Time
deriving DecidableEq, Repr

/-- `SessionSchema.methods.isExpired` (Session model:135-137). -/
def SessionRec.isExpired (s : SessionRec) (now : Time) : Bool :=
  s.expiresAt < now

/-- `SessionSchema.methods.updateLastLogin` (Session model:139-142). -/
def SessionRec.updateLastLogin (s : SessionRec) (now : Time) : SessionRec :=
  { s with lastLogin := now }

/-- `SessionSchema.methods.deactivate` (Session model:144-147). -/
def SessionRec.deactivate (s : SessionRec) : SessionRec :=
  { s with isActive := false }

/-- A `devices` document (the fields the auth flows touch). -/
structure DeviceRec where
  identifier : String
  userId : String
  lastSeen : Time
deriving DecidableEq, Repr

/-- `DeviceSchema.methods.updateLastSeen` (Device model:185-188). -/
def DeviceRec.updateLastSeen (d : DeviceRec) (now : Time) : DeviceRec :=
  { d with lastSeen := now }

/-- A `users` document (the fields the auth flows read). -/
structure UserRec where
  firstName : String
  lastName : String
  username : String
deriving DecidableEq, Repr

/-- The verified third-party identity returned by `verifyGoogleToken`. -/
structure GoogleUser where
  sub : String
  email : String
  emailVerified : Bool
  givenName : String
  familyName : String
deriving DecidableEq, Repr

/-- The client-supplied device info (the fields the flows use). -/
structure DeviceInfo where
  identifier : String
  userAgent : String
deriving DecidableEq, Repr

/-! ## Stores and the world -/

/-- `findOne` by document id over an association list. -/
def lookupS {α : Type} : List (String × α) → String → Option α
  | [], _ => none
  | (k, v) :: rest, key => if k = key then some v else lookupS rest key

/-- `document.save()`: replace every entry keyed by the document id. -/
def setS {α : Type} : List (String × α) → String → α → List (String × α)
  | [], _, _ => []
  | (k1, v1) :: rest, key, v =>
      if k1 = key then (key, v) :: setS rest key v else (k1, v1) :: setS rest key v

/-- The durable state: the four collections plus a fresh-ObjectId supply. -/
structure World where
  users : List (String × UserRec)
  accounts : List (String × AccountRec)
  devices : List (String × DeviceRec)
  sessions : List (String × SessionRec)
  nextId : Nat
deriving DecidableEq, Repr

/-- A fresh ObjectId (model of `new mongoose.Types.ObjectId()`). -/
def World.freshId (w : World) : String × World :=
  ("oid" ++ toString w.nextId, { w with nextId := w.nextId + 1 })

/-- `Account.findByEmail(email)`: `findOne({email: email.toLowerCase()})`
(stored emails are lowercased by the schema). -/
def findAccountByEmail : List (String × AccountRec) → String → Option (String × AccountRec)
  | [], _ => none
  | (k, a) :: rest, email =>
      if a.email = strToLower email then some (k, a) else findAccountByEmail rest email

/-- `Account.findByUserId(userId)`: `findOne({userId})`. -/
def findAccountByUserId : List (String × AccountRec) → String → Option (String × AccountRec)
  | [], _ => none
  | (k, a) :: rest, uid =>
      if a.userId = uid then some (k, a) else findAccountByUserId rest uid

/-- `Account.findOne({'providers.provider': p, 'providers.providerId': id})`
(src/services/google-oauth.service.ts:37-40). -/
def findAccountByProviderLink : List (String × AccountRec) → String → String → Option (String × AccountRec)
  | [], _, _ => none
  | (k, a) :: rest, provider, providerId =>
      if a.providers.any (fun q => q.provider = provider ∧ q.providerId = providerId) then
        some (k, a)
      else
        findAccountByProviderLink rest provider providerId

/-- The `{$gt: new Date()}` expiry guard on an optional expiry field. -/
def expiresAfter (e : Option Time) (now : Time) : Bool :=
  match e with
  | some e => now < e
  | none => false

/-- `Account.findOne({emailVerificationToken: token,
emailVerificationTokenExpiresAt: {$gt: now}})`
(src/services/auth.service.ts:611-614). -/
def findAccountByVerificationToken :
    List (String × AccountRec) → String → Time → Option (String × AccountRec)
  | [], _, _ => none
  | (k, a) :: rest, token, now =>
      if a.emailVerificationToken = some token ∧
          expiresAfter a.emailVerificationTokenExpiresAt now = true then
        some (k, a)
      else
        findAccountByVerificationToken rest token now

/-- `Device.findByIdentifier(identifier)`: `findOne({identifier})`. -/
def findDeviceByIdentifier : List (String × DeviceRec) → String → Option (String × DeviceRec)
  | [], _ => none
  | (k, d) :: rest, identifier =>
      if d.identifier = identifier then some (k, d) else findDeviceByIdentifier rest identifier

/-! ## Errors and results (`src/utils/errors.ts`) -/

inductive AppErr where
  | validation (msg : String)
  | authentication (msg : String)
  | conflict (msg : String)
  | notFound (msg : String)
deriving DecidableEq, Repr

/-- The token-issuing response shape shared by login and the OAuth flows. -/
structure AuthTokensResult where
  accessToken : Jwt
  refreshToken : Jwt
  userId : String
  sessionId : String
  deviceId : String
deriving DecidableEq, Repr

/-- A `{success, message}` response. -/
structure MsgResult where
  success : Bool
  message : String
deriving DecidableEq, Repr

/-! ## Auth engine (`src/services/auth.service.ts`) -/

def sevenDaysMs : Nat := 7 * 24 * 60 * 60 * 1000

/-- The find-or-create device step shared by `login` and
`performGoogleLogin` (src/services/auth.service.ts:173-188,
src/services/google-oauth.service.ts:256-269): refresh `lastSeen` of an
existing device, else create one for the account's user. -/
def resolveDevice (dinfo : DeviceInfo) (userId : String) (now : Time) (w : World) :
    String × World :=
  match findDeviceByIdentifier w.devices dinfo.identifier with
  | some (did, d) =>
      (did, { w with devices := setS w.devices did (d.updateLastSeen now) })
  | none =>
      let did := w.freshId.1
      let w1 := w.freshId.2
      (did, { w1 with devices := (did, ⟨dinfo.identifier, userId, now⟩) :: w1.devices })

/-- `login(email, password, deviceInfo, clientIP)`
(src/services/auth.service.ts:117-252), with the world threaded through
and returned also on the error paths (a failed password check persists the
incremented attempt counter before throwing). Note the source signs the
refresh token with an empty `sessionId` before the session exists and never
rebinds it. -/
def login (email password : String) (dinfo : DeviceInfo) (now : Time) (w : World) :
    Except AppErr AuthTokensResult × World :=
  match findAccountByEmail w.accounts email with
  | none => (Except.error (AppErr.authentication "Invalid credentials"), w)
  | some (aid, account) =>
    if account.isActive = false then
      (Except.error (AppErr.authentication "Account is inactive"), w)
    else if account.isBanned now then
      (Except.error (AppErr.authentication "Account is banned"), w)
    else if account.isLocked now then
      (Except.error (AppErr.authentication "Account is locked due to multiple failed attempts"), w)
    else
      match account.password with
      | none =>
          (Except.error (AppErr.authentication "Account has no password. Please use OAuth login."), w)
      | some pwHash =>
        if verifyPassword pwHash password = false then
          let account1 := account.incrementLoginAttempts now
          (Except.error (AppErr.authentication "Invalid credentials"),
            { w with accounts := setS w.accounts aid account1 })
        else
          let account1 := account.resetLoginAttempts
          let w1 := { w with accounts := setS w.accounts aid account1 }
          let dres := resolveDevice dinfo account.userId now w1
          let deviceId := dres.1
          let w2 := dres.2
          let refreshTokenJWT := signRefreshToken account.userId "" now
          let hashedRefreshToken := hashTokenForDatabaseJwt refreshTokenJWT
          let sid := w2.freshId.1
          let w3 := w2.freshId.2
          let session : SessionRec :=
            ⟨account.userId, deviceId, hashedRefreshToken, true, now, now + sevenDaysMs⟩
          let w4 := { w3 with sessions := (sid, session) :: w3.sessions }
          let accessToken := signAccessToken account.userId account.email sid now
          match lookupS w4.users account.userId with
          | none => (Except.error (AppErr.notFound "User not found"), w4)
          | some _user =>
              (Except.ok ⟨accessToken, refreshTokenJWT, account.userId, sid, deviceId⟩, w4)

/-- The response of `refreshAccessToken`: the source returns only
`{accessToken}` — no refresh token. -/
structure RefreshResult where
  accessToken : Jwt
deriving DecidableEq, Repr

/-- `refreshAccessToken(refreshToken)`
(src/services/auth.service.ts:257-312): verify the JWT, load the session,
require it active and unexpired, compare the presented token with the
stored hash, load and check the account, bump `lastLogin`, and return a new
access token. The stored `refreshToken` hash is never overwritten and no
new refresh token is issued; a hash mismatch throws without touching the
session. -/
def refreshAccessToken (token : Jwt) (now : Time) (w : World) :
    Except AppErr RefreshResult × World :=
  match verifyRefreshToken token now with
  | Except.error _ =>
      (Except.error (AppErr.authentication "Invalid or expired refresh token"), w)
  | Except.ok payload =>
    match lookupS w.sessions payload.sessionId with
    | none => (Except.error (AppErr.authentication "Session not found"), w)
    | some session =>
      if session.isActive = false then
        (Except.error (AppErr.authentication "Session is inactive"), w)
      else if session.isExpired now then
        (Except.error (AppErr.authentication "Session has expired"), w)
      else if verifyTokenHashJwt session.refreshToken token = false then
        (Except.error (AppErr.authentication "Token validation failed"), w)
      else
        match findAccountByUserId w.accounts session.userId with
        | none => (Except.error (AppErr.notFound "Account not found"), w)
        | some (_aid, account) =>
          if account.isActive = false ∨ account.isBanned now ∨ account.isLocked now then
            (Except.error (AppErr.authentication "Account is not accessible"), w)
          else
            let sessions1 := setS w.sessions payload.sessionId (session.updateLastLogin now)
            let w1 := { w with sessions := sessions1 }
            let accessToken := signAccessToken account.userId account.email payload.sessionId now
            (Except.ok ⟨accessToken⟩, w1)

/-- `logout(sessionId)` (src/services/auth.service.ts:317-339): deactivate
the session and answer success; a missing session is `NotFoundError`. -/
def logout (sessionId : String) (w : World) : Except AppErr MsgResult × World :=
  match lookupS w.sessions sessionId with
  | none => (Except.error (AppErr.notFound "Session not found"), w)
  | some session =>
      (Except.ok ⟨true, "Logged out successfully"⟩,
        { w with sessions := setS w.sessions sessionId session.deactivate })

def resetGenericMessage : String := "If account exists, password reset email has been sent"

/-- `requestPasswordReset(email)` (src/services/auth.service.ts:361-402).
`generateSecureToken` is random, so the generated token is a parameter.
Unknown email and password-less account answer the identical generic
message with no state change; otherwise the reset token is stored with a
1-hour expiry and the same message is returned. -/
def requestPasswordReset (email token : String) (now : Time) (w : World) :
    MsgResult × World :=
  match findAccountByEmail w.accounts email with
  | none => (⟨true, resetGenericMessage⟩, w)
  | some (aid, account) =>
    if account.hasPassword = false then
      (⟨true, resetGenericMessage⟩, w)
    else
      let account1 :=
        { account with resetToken := some token,
                       resetTokenExpiresAt := some (now + 60 * 60 * 1000) }
      (⟨true, resetGenericMessage⟩, { w with accounts := setS w.accounts aid account1 })

def verifyGenericMessage : String := "If account exists, verification email has been sent"

/-- `resendVerificationEmail(email)` (src/services/auth.service.ts:504-544):
unknown email answers the generic message with no state change; an already
verified account answers success without storing a token; otherwise the
verification token is stored with a 24-hour expiry. -/
def resendVerificationEmail (email token : String) (now : Time) (w : World) :
    MsgResult × World :=
  match findAccountByEmail w.accounts email with
  | none => (⟨true, verifyGenericMessage⟩, w)
  | some (aid, account) =>
    if account.isEmailVerified then
      (⟨true, "Email is already verified"⟩, w)
    else
      let account1 :=
        { account with emailVerificationToken := some token,
                       emailVerificationTokenExpiresAt := some (now + 24 * 60 * 60 * 1000) }
      (⟨true, verifyGenericMessage⟩, { w with accounts := setS w.accounts aid account1 })

/-- `verifyEmailWithToken(verificationToken)`
(src/services/auth.service.ts:609-638): find the account by exact token
match with unexpired expiry; if already verified, answer success without
modifying the account; otherwise set the flag and clear the token. -/
def verifyEmailWithToken (token : String) (now : Time) (w : World) :
    Except AppErr MsgResult × World :=
  match findAccountByVerificationToken w.accounts token now with
  | none => (Except.error (AppErr.authentication "Invalid or expired verification token"), w)
  | some (aid, account) =>
    if account.isEmailVerified then
      (Except.ok ⟨true, "Email is already verified"⟩, w)
    else
      let account1 :=
        { account with isEmailVerified := true,
                       emailVerificationToken := none,
                       emailVerificationTokenExpiresAt := none }
      (Except.ok ⟨true, "Email verified successfully"⟩,
        { w with accounts := setS w.accounts aid account1 })

/-! ## Identity-linking engine (`src/services/google-oauth.service.ts`) -/

/-- `createProviderObject(googleUser)`
(src/services/google-oauth.service.ts:134-142). -/
def createProviderObject (g : GoogleUser) (now : Time) : ProviderRec :=
  ⟨"google", g.sub, g.email, now, some now⟩

/-- `performGoogleLogin(account, googleUser, deviceInfo, clientIP)`
(src/services/google-oauth.service.ts:228-324): re-run the active/ban/lock
checks, refresh the google link's `lastLogin`, resolve the device, create a
session with the `'temp'` placeholder hash, sign a refresh token bound to
the new session id, hash it and write it into the session, and return the
token pair. -/
def performGoogleLogin (now : Time) (dinfo : DeviceInfo) (aid : String)
    (account : AccountRec) (w : World) : Except AppErr AuthTokensResult × World :=
  if account.isActive = false then
    (Except.error (AppErr.authentication "Account is inactive"), w)
  else if account.isBanned now then
    (Except.error (AppErr.authentication "Account is banned"), w)
  else if account.isLocked now then
    (Except.error (AppErr.authentication "Account is locked"), w)
  else
    let hasGoogle := account.providers.any (fun p => p.provider = "google")
    let providers1 :=
      updateFirst (fun p => p.provider = "google")
        (fun p => { p with lastLogin := some now }) account.providers
    let account1 :=
      if hasGoogle then { account with providers := providers1 } else account
    let w1 :=
      if hasGoogle then { w with accounts := setS w.accounts aid account1 } else w
    let dres := resolveDevice dinfo account1.userId now w1
    let deviceId := dres.1
    let w2 := dres.2
    let sid := w2.freshId.1
    let w3 := w2.freshId.2
    let session0 : SessionRec :=
      ⟨account1.userId, deviceId, StoredHash.temp, true, now, now + sevenDaysMs⟩
    let w4 := { w3 with sessions := (sid, session0) :: w3.sessions }
    let refreshTokenJWT := signRefreshToken account1.userId sid now
    let hashedRefreshToken := hashTokenForDatabaseJwt refreshTokenJWT
    let session1 := { session0 with refreshToken := hashedRefreshToken }
    let w5 := { w4 with sessions := setS w4.sessions sid session1 }
    match lookupS w5.users account1.userId with
    | none => (Except.error (AppErr.notFound "User not found"), w5)
    | some _user =>
        let accessToken := signAccessToken account1.userId account1.email sid now
        (Except.ok ⟨accessToken, refreshTokenJWT, account1.userId, sid, deviceId⟩, w5)

/-- `createAccountFromGoogle(googleUser, deviceInfo, clientIP)`
(src/services/google-oauth.service.ts:147-223): create a user, an account
holding exactly the one google provider link (no password), a device, and a
session with the `'temp'` placeholder; then sign a refresh token bound to
the session id, hash it, write it into the session, and return the token
pair. The random default username is modelled from the fresh-id supply. -/
def createAccountFromGoogle (g : GoogleUser) (dinfo : DeviceInfo) (now : Time)
    (w : World) : Except AppErr AuthTokensResult × World :=
  let uid := w.freshId.1
  let w1 := w.freshId.2
  let user : UserRec := ⟨g.givenName, g.familyName, "@user_" ++ toString w.nextId⟩
  let w2 := { w1 with users := (uid, user) :: w1.users }
  let aid := w2.freshId.1
  let w3 := w2.freshId.2
  let account : AccountRec :=
    { userId := uid
      email := strToLower g.email
      password := none
      isActive := true
      isEmailVerified := g.emailVerified
      isPhoneVerified := false
      banType := none
      banEndAt := none
      loginAttempts := 0
      lastAttemptAt := none
      lockUntil := none
      providers := [createProviderObject g now]
      emailVerificationToken := none
      emailVerificationTokenExpiresAt := none
      resetToken := none
      resetTokenExpiresAt := none }
  let w4 := { w3 with accounts := (aid, account) :: w3.accounts }
  let did := w4.freshId.1
  let w5 := w4.freshId.2
  let w6 := { w5 with devices := (did, ⟨dinfo.identifier, uid, now⟩) :: w5.devices }
  let sid := w6.freshId.1
  let w7 := w6.freshId.2
  let session0 : SessionRec := ⟨uid, did, StoredHash.temp, true, now, now + sevenDaysMs⟩
  let w8 := { w7 with sessions := (sid, session0) :: w7.sessions }
  let refreshTokenJWT := signRefreshToken uid sid now
  let hashedRefreshToken := hashTokenForDatabaseJwt refreshTokenJWT
  let session1 := { session0 with refreshToken := hashedRefreshToken }
  let w9 := { w8 with sessions := setS w8.sessions sid session1 }
  let accessToken := signAccessToken uid account.email sid now
  (Except.ok ⟨accessToken, refreshTokenJWT, uid, sid, did⟩, w9)

/-- `loginWithGoogle(idToken, deviceInfo, clientIP)`
(src/services/google-oauth.service.ts:28-66), taking the already verified
Google identity. Decision tree: an account already linked to this
google subject logs in on it; otherwise no account with this email creates
one; an email match with a password refuses with `EMAIL_EXISTS_PASSWORD`
untouched; an email match without a password auto-links then logs in. -/
def loginWithGoogle (g : GoogleUser) (dinfo : DeviceInfo) (now : Time) (w : World) :
    Except AppErr AuthTokensResult × World :=
  match findAccountByProviderLink w.accounts "google" g.sub with
  | some (aid, account) => performGoogleLogin now dinfo aid account w
  | none =>
    match findAccountByEmail w.accounts g.email with
    | none => createAccountFromGoogle g dinfo now w
    | some (aid, account) =>
      if account.hasPassword then
        (Except.error (AppErr.authentication "EMAIL_EXISTS_PASSWORD"), w)
      else
        let account1 := account.addProvider (createProviderObject g now)
        performGoogleLogin now dinfo aid account1
          { w with accounts := setS w.accounts aid account1 }

/-! ## Helper lemmas -/

theorem listIsPrefixOf_append (l1 l2 : List Char) : l1.isPrefixOf (l1 ++ l2) = true := by
  induction l1 with
  | nil => simp [List.isPrefixOf]
  | cons a as ih => simp [List.isPrefixOf, ih]

theorem argonWellFormed_hash (s : String) : argonWellFormed (argonHash s) = true := by
  show argonTag.data.isPrefixOf (argonTag ++ s).data = true
  rw [String.data_append]
  exact listIsPrefixOf_append _ _

theorem argonHash_ne_empty (s : String) : argonHash s ≠ "" := by
  intro h
  have h2 : (argonTag ++ s).data = ("" : String).data := congrArg String.data h
  rw [String.data_append] at h2
  have h3 : argonTag.data = [] ∧ s.data = [] := by
    have : argonTag.data ++ s.data = [] := h2
    exact List.append_eq_nil.mp this
  exact absurd h3.1 (by decide)

theorem argonHash_inj {s t : String} (h : argonHash s = argonHash t) : s = t := by
  have h2 : (argonTag ++ s).data = (argonTag ++ t).data := congrArg String.data h
  rw [String.data_append, String.data_append] at h2
  exact String.ext (List.append_cancel_left h2)

theorem verifyPassword_empty_digest (p : String) : verifyPassword "" p = false := by
  simp [verifyPassword, verifyPasswordTry]

theorem verifyPassword_empty_secret (h : String) : verifyPassword h "" = false := by
  simp [verifyPassword, verifyPasswordTry]

theorem verifyPassword_malformed (d p : String) (h : argonWellFormed d = false) :
    verifyPassword d p = false := by
  by_cases hd : d = ""
  · rw [hd]; exact verifyPassword_empty_digest p
  · by_cases hp : p = ""
    · rw [hp]; exact verifyPassword_empty_secret d
    · simp [verifyPassword, verifyPasswordTry, argon2verify, hd, hp, h]

theorem verifyPassword_hash_self (s : String) (h : s ≠ "") :
    verifyPassword (argonHash s) s = true := by
  have hne : ¬ (argonTag ++ s = "") := argonHash_ne_empty s
  have hwf : argonWellFormed (argonTag ++ s) = true := argonWellFormed_hash s
  simp [verifyPassword, verifyPasswordTry, argon2verify, argonHash, hne, h, hwf]

theorem verifyPassword_hash_ne (s p : String) (h : p ≠ s) :
    verifyPassword (argonHash s) p = false := by
  by_cases hp : p = ""
  · rw [hp]; exact verifyPassword_empty_secret _
  · simp only [verifyPassword, verifyPasswordTry, argon2verify, argonWellFormed_hash,
      if_true, argonHash_ne_empty s, hp, or_self, if_false, if_neg, ite_true]
    have : ¬ (argonHash s = argonTag ++ p) := by
      intro heq
      exact h (argonHash_inj (heq : argonHash s = argonHash p)).symm
    simp [argonHash_ne_empty s, hp, this]

theorem verifyTokenHash_eq_verifyPassword (h t : String) :
    verifyTokenHash h t = verifyPassword h t := rfl

/-! Association-list helpers. -/

theorem lookupS_setS_found {α : Type} (l : List (String × α)) (k : String) (v x : α)
    (h : lookupS l k = some x) : lookupS (setS l k v) k = some v := by
  induction l with
  | nil => simp [lookupS] at h
  | cons kv rest ih =>
      obtain ⟨k1, v1⟩ := kv
      by_cases hk : k1 = k
      · subst hk
        simp [lookupS, setS]
      · simp [lookupS, setS, hk] at h ⊢
        exact ih h

theorem setS_setS {α : Type} (l : List (String × α)) (k : String) (v1 v2 : α) :
    setS (setS l k v1) k v2 = setS l k v2 := by
  induction l with
  | nil => rfl
  | cons kv rest ih =>
      obtain ⟨k1, w1⟩ := kv
      by_cases hk : k1 = k
      · subst hk
        simp [setS, ih]
      · simp [setS, hk, ih]

/-! World-projection helpers for the device-resolution step. -/

theorem resolveDevice_accounts (dinfo : DeviceInfo) (uid : String) (now : Time) (w : World) :
    (resolveDevice dinfo uid now w).2.accounts = w.accounts := by
  unfold resolveDevice
  cases h : findDeviceByIdentifier w.devices dinfo.identifier with
  | none => rfl
  | some kv => rfl

theorem resolveDevice_users (dinfo : DeviceInfo) (uid : String) (now : Time) (w : World) :
    (resolveDevice dinfo uid now w).2.users = w.users := by
  unfold resolveDevice
  cases h : findDeviceByIdentifier w.devices dinfo.identifier with
  | none => rfl
  | some kv => rfl

theorem resolveDevice_sessions (dinfo : DeviceInfo) (uid : String) (now : Time) (w : World) :
    (resolveDevice dinfo uid now w).2.sessions = w.sessions := by
  unfold resolveDevice
  cases h : findDeviceByIdentifier w.devices dinfo.identifier with
  | none => rfl
  | some kv => rfl

/-! ## Concrete fixtures for witnesses and counterexamples -/

/-- An account with the schema defaults and the given credentials. -/
def baseAccount (uid email : String) (pw : Option String) : AccountRec :=
  { userId := uid
    email := email
    password := pw
    isActive := true
    isEmailVerified := false
    isPhoneVerified := false
    banType := none
    banEndAt := none
    loginAttempts := 0
    lastAttemptAt := none
    lockUntil := none
    providers := []
    emailVerificationToken := none
    emailVerificationTokenExpiresAt := none
    resetToken := none
    resetTokenExpiresAt := none }

/-! ## Claim theorems -/

/-- Claim C6: for every stored digest and supplied secret, the credential
verifiers `verifyPassword` and `verifyTokenHash` return a boolean and never
throw (they are total `Bool`-valued functions, the source's catch-all
handler): an empty digest, an empty supplied secret, a malformed digest
(one `argon2.verify` raises on), and a mismatched secret all yield
`false`. -/
theorem claim_C6_verifiers_never_throw (d p s : String) :
    verifyPassword "" p = false ∧
    verifyPassword d "" = false ∧
    (argonWellFormed d = false → verifyPassword d p = false) ∧
    (p ≠ s → verifyPassword (argonHash s) p = false) ∧
    verifyTokenHash "" p = false ∧
    verifyTokenHash d "" = false ∧
    (argonWellFormed d = false → verifyTokenHash d p = false) ∧
    (p ≠ s → verifyTokenHash (argonHash s) p = false) := by
  refine ⟨verifyPassword_empty_digest p, verifyPassword_empty_secret d,
    fun h => verifyPassword_malformed d p h,
    fun h => verifyPassword_hash_ne s p h, ?_, ?_, ?_, ?_⟩
  · rw [verifyTokenHash_eq_verifyPassword]
    exact verifyPassword_empty_digest p
  · rw [verifyTokenHash_eq_verifyPassword]
    exact verifyPassword_empty_secret d
  · intro h
    rw [verifyTokenHash_eq_verifyPassword]
    exact verifyPassword_malformed d p h
  · intro h
    rw [verifyTokenHash_eq_verifyPassword]
    exact verifyPassword_hash_ne s p h

/-- Witness for C6 at concrete inputs: the digest `"bogus"` is malformed,
and the secret `"x"` mismatches the digest of `"y"`. -/
theorem claim_C6_witness :
    verifyPassword "bogus" "x" = false ∧
    verifyPassword (argonHash "y") "x" = false ∧
    verifyTokenHash "bogus" "x" = false ∧
    verifyTokenHash (argonHash "y") "x" = false := by
  have t := claim_C6_verifiers_never_throw "bogus" "x" "y"
  exact ⟨t.2.2.1 (by decide), t.2.2.2.1 (by decide),
    t.2.2.2.2.2.2.1 (by decide), t.2.2.2.2.2.2.2 (by decide)⟩

/-- Claim C7 counterexample: the non-empty 8-character token
`"abcdefgh"` — long enough for the password floor — is rejected by
`hashTokenForDatabase`, whose guard is `token.length < 10`; so token
hashing is not exempt from a length floor, refuting the claim that only
emptiness is checked. -/
theorem claim_C7_counterexample :
    "abcdefgh" ≠ "" ∧ 8 ≤ "abcdefgh".length ∧
    hashTokenForDatabase "abcdefgh" =
      Except.error "Token hashing failed: Token must be at least 10 characters long" := by
  exact ⟨by decide, by decide, rfl⟩

/-- Claim C7 (amended): `hashPassword` rejects the empty password and any
password shorter than 8 characters and hashes the rest;
`hashTokenForDatabase` rejects any token shorter than 10 characters (in
particular the empty token) instead of the password 8-character floor, and
hashes the rest. -/
theorem claim_C7_amended (p t : String) :
    (p.length = 0 →
      hashPassword p = Except.error "Password hashing failed: Password cannot be empty") ∧
    (p.length ≠ 0 → p.length < 8 →
      hashPassword p =
        Except.error "Password hashing failed: Password must be at least 8 characters long") ∧
    (8 ≤ p.length → hashPassword p = Except.ok (argonHash p)) ∧
    (t.length < 10 →
      hashTokenForDatabase t =
        Except.error "Token hashing failed: Token must be at least 10 characters long") ∧
    (10 ≤ t.length → hashTokenForDatabase t = Except.ok (argonHash t)) := by
  refine ⟨?_, ?_, ?_, ?_, ?_⟩
  · intro h
    simp [hashPassword, hashPasswordTry, h]
  · intro h0 h8
    simp [hashPassword, hashPasswordTry, h0, h8]
  · intro h
    have h0 : ¬ (p.length = 0) := by omega
    have h8 : ¬ (p.length < 8) := by omega
    simp [hashPassword, hashPasswordTry, h0, h8]
  · intro h
    simp [hashTokenForDatabase, hashTokenForDatabaseTry, h]
  · intro h
    have ht : ¬ (t = "" ∨ t.length < 10) := by
      rintro (rfl | hlt)
      · simp at h
      · omega
    simp [hashTokenForDatabase, hashTokenForDatabaseTry, ht]

/-- Witness for C7 (amended) at concrete inputs of each class. -/
theorem claim_C7_witness :
    hashPassword "" = Except.error "Password hashing failed: Password cannot be empty" ∧
    hashPassword "abc" =
      Except.error "Password hashing failed: Password must be at least 8 characters long" ∧
    hashPassword "password123" = Except.ok (argonHash "password123") ∧
    hashTokenForDatabase "abcdefghi" =
      Except.error "Token hashing failed: Token must be at least 10 characters long" ∧
    hashTokenForDatabase "abcdefghij" = Except.ok (argonHash "abcdefghij") := by
  have t1 := claim_C7_amended "" "abcdefghi"
  have t2 := claim_C7_amended "abc" "abcdefghij"
  have t3 := claim_C7_amended "password123" "abcdefghij"
  exact ⟨t1.1 (by decide), t2.2.1 (by decide) (by decide), t3.2.2.1 (by decide),
    t1.2.2.2.1 (by decide), t2.2.2.2.2 (by decide)⟩

/-- Claim C10: when `verifyEmailWithToken` finds an account by a matching,
unexpired verification token whose `isEmailVerified` is already true, it
answers success without modifying the store: the verification token and its
expiry are not cleared, so the same token remains matchable afterwards. -/
theorem claim_C10_already_verified_frame (w : World) (tok : String) (now : Time)
    (aid : String) (a : AccountRec)
    (hfind : findAccountByVerificationToken w.accounts tok now = some (aid, a))
    (hver : a.isEmailVerified = true) :
    verifyEmailWithToken tok now w = (Except.ok ⟨true, "Email is already verified"⟩, w) ∧
    findAccountByVerificationToken (verifyEmailWithToken tok now w).2.accounts tok now =
      some (aid, a) := by
  have h1 : verifyEmailWithToken tok now w =
      (Except.ok ⟨true, "Email is already verified"⟩, w) := by
    unfold verifyEmailWithToken
    rw [hfind]
    simp [hver]
  refine ⟨h1, ?_⟩
  rw [h1]
  exact hfind

/-- The fixture for the C10 witness: an already verified account holding an
unexpired verification token. -/
def acctC10 : AccountRec :=
  { baseAccount "u1" "bob@example.com" none with
      isEmailVerified := true
      emailVerificationToken := some "tok123"
      emailVerificationTokenExpiresAt := some 100 }

def worldC10 : World := ⟨[], [("a1", acctC10)], [], [], 0⟩

/-- Witness for C10 on a concrete store. -/
theorem claim_C10_witness :
    verifyEmailWithToken "tok123" 5 worldC10 =
      (Except.ok ⟨true, "Email is already verified"⟩, worldC10) ∧
    findAccountByVerificationToken (verifyEmailWithToken "tok123" 5 worldC10).2.accounts
      "tok123" 5 = some ("a1", acctC10) :=
  claim_C10_already_verified_frame worldC10 "tok123" 5 "a1" acctC10 rfl rfl

/-- Claim C9: logout of an existing session deactivates it and answers
success, and a second logout of the same session returns the identical
result and leaves the state unchanged. -/
theorem claim_C9_logout_idempotent (w : World) (sid : String) (s : SessionRec)
    (hfind : lookupS w.sessions sid = some s) :
    (logout sid w).1 = Except.ok ⟨true, "Logged out successfully"⟩ ∧
    lookupS (logout sid w).2.sessions sid = some s.deactivate ∧
    s.deactivate.isActive = false ∧
    logout sid (logout sid w).2 = logout sid w := by
  have h1 : logout sid w =
      (Except.ok ⟨true, "Logged out successfully"⟩,
        { w with sessions := setS w.sessions sid s.deactivate }) := by
    unfold logout
    rw [hfind]
  have hl : lookupS (setS w.sessions sid s.deactivate) sid = some s.deactivate :=
    lookupS_setS_found _ _ _ _ hfind
  refine ⟨by rw [h1], by rw [h1]; exact hl, rfl, ?_⟩
  rw [h1]
  show logout sid { w with sessions := setS w.sessions sid s.deactivate } = _
  unfold logout
  rw [hl]
  simp [SessionRec.deactivate, setS_setS]

def sessC9 : SessionRec := ⟨"u1", "d1", StoredHash.temp, true, 0, 100⟩

def worldC9 : World := ⟨[], [], [], [("s1", sessC9)], 0⟩

/-- Witness for C9 on a concrete store. -/
theorem claim_C9_witness :
    (logout "s1" worldC9).1 = Except.ok ⟨true, "Logged out successfully"⟩ ∧
    lookupS (logout "s1" worldC9).2.sessions "s1" = some sessC9.deactivate ∧
    logout "s1" (logout "s1" worldC9).2 = logout "s1" worldC9 := by
  have t := claim_C9_logout_idempotent worldC9 "s1" sessC9 rfl
  exact ⟨t.1, t.2.1, t.2.2.2⟩

/-- Claim C8: a password-reset or email-verification request for a
non-existent email answers the same generic success shape as for an
existing one and stores no token (the world is unchanged); a reset request
for a password-less account answers the identical generic message with no
side effect; and every such request answers `success = true`. -/
theorem claim_C8_enumeration_safe (email tok : String) (now : Time) (w : World) :
    (findAccountByEmail w.accounts email = none →
      requestPasswordReset email tok now w = (⟨true, resetGenericMessage⟩, w) ∧
      resendVerificationEmail email tok now w = (⟨true, verifyGenericMessage⟩, w)) ∧
    (∀ aid a, findAccountByEmail w.accounts email = some (aid, a) →
      a.hasPassword = false →
      requestPasswordReset email tok now w = (⟨true, resetGenericMessage⟩, w)) ∧
    (∀ aid a, findAccountByEmail w.accounts email = some (aid, a) →
      (requestPasswordReset email tok now w).1 = ⟨true, resetGenericMessage⟩) ∧
    (∀ aid a, findAccountByEmail w.accounts email = some (aid, a) →
      a.isEmailVerified = false →
      (resendVerificationEmail email tok now w).1 = ⟨true, verifyGenericMessage⟩) ∧
    (∀ aid a, findAccountByEmail w.accounts email = some (aid, a) →
      (resendVerificationEmail email tok now w).1.success = true) := by
  refine ⟨?_, ?_, ?_, ?_, ?_⟩
  · intro h
    constructor
    · unfold requestPasswordReset
      rw [h]
    · unfold resendVerificationEmail
      rw [h]
  · intro aid a h hp
    unfold requestPasswordReset
    rw [h]
    simp [hp]
  · intro aid a h
    unfold requestPasswordReset
    rw [h]
    cases hp : a.hasPassword <;> simp [hp]
  · intro aid a h hv
    unfold resendVerificationEmail
    rw [h]
    simp [hv]
  · intro aid a h
    unfold resendVerificationEmail
    rw [h]
    cases hv : a.isEmailVerified <;> simp [hv]

def acctC8NoPw : AccountRec := baseAccount "u2" "carol@example.com" none

def acctC8Pw : AccountRec := baseAccount "u3" "dave@example.com" (some (argonHash "Secret123"))

def worldC8a : World := ⟨[], [], [], [], 0⟩

def worldC8b : World := ⟨[], [("a1", acctC8NoPw)], [], [], 0⟩

def worldC8c : World := ⟨[], [("a2", acctC8Pw)], [], [], 0⟩

/-- Witness for C8 on concrete stores: an absent email, a password-less
account, and an account with a password. -/
theorem claim_C8_witness :
    requestPasswordReset "carol@example.com" "tok" 0 worldC8a =
      (⟨true, resetGenericMessage⟩, worldC8a) ∧
    requestPasswordReset "carol@example.com" "tok" 0 worldC8b =
      (⟨true, resetGenericMessage⟩, worldC8b) ∧
    (requestPasswordReset "dave@example.com" "tok" 0 worldC8c).1 =
      ⟨true, resetGenericMessage⟩ ∧
    (resendVerificationEmail "dave@example.com" "tok" 0 worldC8c).1.success = true := by
  have t1 := claim_C8_enumeration_safe "carol@example.com" "tok" 0 worldC8a
  have t2 := claim_C8_enumeration_safe "carol@example.com" "tok" 0 worldC8b
  have t3 := claim_C8_enumeration_safe "dave@example.com" "tok" 0 worldC8c
  exact ⟨(t1.1 rfl).1, t2.2.1 "a1" acctC8NoPw (by decide) rfl, t3.2.2.1 "a2" acctC8Pw (by decide),
    t3.2.2.2.2 "a2" acctC8Pw (by decide)⟩

/-- Evaluation of a fully successful `refreshAccessToken` call: the result
is only an access token, and the sole state change is the session's
`lastLogin` bump. -/
theorem refreshAccessToken_ok_eval (t : Jwt) (now : Time) (w : World) (c : RefreshClaims)
    (s : SessionRec) (aid : String) (a : AccountRec)
    (hv : verifyRefreshToken t now = Except.ok c)
    (hs : lookupS w.sessions c.sessionId = some s)
    (hact : s.isActive = true)
    (hexp : s.isExpired now = false)
    (hmatch : verifyTokenHashJwt s.refreshToken t = true)
    (ha : findAccountByUserId w.accounts s.userId = some (aid, a))
    (haact : a.isActive = true)
    (hban : a.isBanned now = false)
    (hlock : a.isLocked now = false) :
    refreshAccessToken t now w =
      (Except.ok ⟨signAccessToken a.userId a.email c.sessionId now⟩,
        { w with sessions := setS w.sessions c.sessionId (s.updateLastLogin now) }) := by
  unfold refreshAccessToken
  rw [hv]
  simp [hs, hact, hexp, hmatch, ha, haact, hban, hlock]

/-- Claim C2 (amended): when the presented token's signature verifies and
the session is found, active and unexpired but the token does not match the
stored refresh-token hash, the engine returns `AuthenticationError`
(`"Token validation failed"`) and leaves the store untouched — in
particular the session is NOT deactivated. -/
theorem claim_C2_mismatch_no_deactivation (t : Jwt) (now : Time) (w : World)
    (c : RefreshClaims) (s : SessionRec)
    (hv : verifyRefreshToken t now = Except.ok c)
    (hs : lookupS w.sessions c.sessionId = some s)
    (hact : s.isActive = true)
    (hexp : s.isExpired now = false)
    (hmm : verifyTokenHashJwt s.refreshToken t = false) :
    refreshAccessToken t now w =
      (Except.error (AppErr.authentication "Token validation failed"), w) ∧
    lookupS (refreshAccessToken t now w).2.sessions c.sessionId = some s ∧
    s.isActive = true := by
  have h1 : refreshAccessToken t now w =
      (Except.error (AppErr.authentication "Token validation failed"), w) := by
    unfold refreshAccessToken
    rw [hv]
    simp [hs, hact, hexp, hmm]
  refine ⟨h1, ?_, hact⟩
  rw [h1]
  exact hs

def tokC2 : Jwt := Jwt.refreshSigned ⟨"u1", "s1", refreshTokenExpiryMs⟩

def tokC2other : Jwt := Jwt.refreshSigned ⟨"u1", "s1", refreshTokenExpiryMs + 1⟩

def sessC2 : SessionRec := ⟨"u1", "d1", StoredHash.hashOf tokC2other, true, 0, sevenDaysMs⟩

def acctC2 : AccountRec := baseAccount "u1" "alice@example.com" (some (argonHash "Secret123"))

def worldC2 : World := ⟨[], [("a1", acctC2)], [], [("s1", sessC2)], 0⟩

/-- Claim C2 counterexample: a concrete refresh call whose token passes
signature, session-lookup, activity and expiry checks but mismatches the
stored hash returns `AuthenticationError` while the session stays active
and the store is unchanged — no deactivation is persisted. -/
theorem claim_C2_counterexample :
    (refreshAccessToken tokC2 0 worldC2).1 =
      Except.error (AppErr.authentication "Token validation failed") ∧
    (refreshAccessToken tokC2 0 worldC2).2 = worldC2 ∧
    (lookupS (refreshAccessToken tokC2 0 worldC2).2.sessions "s1").map SessionRec.isActive =
      some true := by
  exact ⟨rfl, rfl, rfl⟩

/-- Witness for the amended C2 on the concrete mismatch state. -/
theorem claim_C2_witness :
    refreshAccessToken tokC2 0 worldC2 =
      (Except.error (AppErr.authentication "Token validation failed"), worldC2) ∧
    lookupS (refreshAccessToken tokC2 0 worldC2).2.sessions "s1" = some sessC2 ∧
    sessC2.isActive = true :=
  claim_C2_mismatch_no_deactivation tokC2 0 worldC2 ⟨"u1", "s1", refreshTokenExpiryMs⟩
    sessC2 rfl rfl rfl rfl rfl

/-- Claim C1 (amended): a refresh call that passes the signature,
session-lookup, activity, expiry and stored-hash checks returns only a new
access token; no new refresh token is issued, the session's stored
refresh-token hash is left unchanged (only `lastLogin` is bumped), and
consequently a second refresh call presenting the original token succeeds
as well. -/
theorem claim_C1_no_rotation (t : Jwt) (now : Time) (w : World) (c : RefreshClaims)
    (s : SessionRec) (aid : String) (a : AccountRec)
    (hv : verifyRefreshToken t now = Except.ok c)
    (hs : lookupS w.sessions c.sessionId = some s)
    (hact : s.isActive = true)
    (hexp : s.isExpired now = false)
    (hmatch : verifyTokenHashJwt s.refreshToken t = true)
    (ha : findAccountByUserId w.accounts s.userId = some (aid, a))
    (haact : a.isActive = true)
    (hban : a.isBanned now = false)
    (hlock : a.isLocked now = false) :
    refreshAccessToken t now w =
      (Except.ok ⟨signAccessToken a.userId a.email c.sessionId now⟩,
        { w with sessions := setS w.sessions c.sessionId (s.updateLastLogin now) }) ∧
    lookupS (refreshAccessToken t now w).2.sessions c.sessionId =
      some (s.updateLastLogin now) ∧
    (s.updateLastLogin now).refreshToken = s.refreshToken ∧
    refreshAccessToken t now (refreshAccessToken t now w).2 =
      (Except.ok ⟨signAccessToken a.userId a.email c.sessionId now⟩,
        (refreshAccessToken t now w).2) := by
  have h1 := refreshAccessToken_ok_eval t now w c s aid a hv hs hact hexp hmatch ha
    haact hban hlock
  have hs1 : lookupS (setS w.sessions c.sessionId (s.updateLastLogin now)) c.sessionId =
      some (s.updateLastLogin now) := lookupS_setS_found _ _ _ _ hs
  have h2 := refreshAccessToken_ok_eval t now
    { w with sessions := setS w.sessions c.sessionId (s.updateLastLogin now) } c
    (s.updateLastLogin now) aid a hv hs1 hact hexp hmatch ha haact hban hlock
  refine ⟨h1, by rw [h1]; exact hs1, rfl, ?_⟩
  rw [h1]
  show refreshAccessToken t now
      { w with sessions := setS w.sessions c.sessionId (s.updateLastLogin now) } = _
  rw [h2]
  simp [SessionRec.updateLastLogin, setS_setS]

def tokC1 : Jwt := Jwt.refreshSigned ⟨"u1", "s1", refreshTokenExpiryMs⟩

def sessC1 : SessionRec := ⟨"u1", "d1", StoredHash.hashOf tokC1, true, 0, sevenDaysMs⟩

def worldC1 : World := ⟨[], [("a1", acctC2)], [], [("s1", sessC1)], 0⟩

/-- Claim C1 counterexample: on a concrete state whose presented token
passes every check, the refresh call returns only an access token, the
stored refresh-token hash is unchanged, and a second refresh presenting the
SAME original token succeeds — contradicting the claim that it must
fail. -/
theorem claim_C1_counterexample :
    (refreshAccessToken tokC1 0 worldC1).1 =
      Except.ok ⟨signAccessToken "u1" "alice@example.com" "s1" 0⟩ ∧
    (lookupS (refreshAccessToken tokC1 0 worldC1).2.sessions "s1").map
      SessionRec.refreshToken = some (StoredHash.hashOf tokC1) ∧
    (refreshAccessToken tokC1 0 (refreshAccessToken tokC1 0 worldC1).2).1 =
      Except.ok ⟨signAccessToken "u1" "alice@example.com" "s1" 0⟩ := by
  exact ⟨rfl, rfl, rfl⟩

/-- Witness for the amended C1 on a concrete valid state. -/
theorem claim_C1_witness :
    refreshAccessToken tokC1 0 worldC1 =
      (Except.ok ⟨signAccessToken "u1" "alice@example.com" "s1" 0⟩,
        { worldC1 with sessions := setS worldC1.sessions "s1" (sessC1.updateLastLogin 0) }) ∧
    lookupS (refreshAccessToken tokC1 0 worldC1).2.sessions "s1" =
      some (sessC1.updateLastLogin 0) ∧
    (sessC1.updateLastLogin 0).refreshToken = sessC1.refreshToken ∧
    refreshAccessToken tokC1 0 (refreshAccessToken tokC1 0 worldC1).2 =
      (Except.ok ⟨signAccessToken "u1" "alice@example.com" "s1" 0⟩,
        (refreshAccessToken tokC1 0 worldC1).2) :=
  claim_C1_no_rotation tokC1 0 worldC1 ⟨"u1", "s1", refreshTokenExpiryMs⟩ sessC1 "a1"
    acctC2 rfl rfl rfl rfl rfl rfl rfl rfl rfl

def acctC3 : AccountRec := baseAccount "u1" "alice@example.com" (some (argonHash "Secret123"))

def userC3 : UserRec := ⟨"Alice", "Smith", "alice"⟩

def dinfoC3 : DeviceInfo := ⟨"dev-fp-1", "agent"⟩

def worldC3 : World := ⟨[("u1", userC3)], [("a1", acctC3)], [], [], 0⟩

/-- Claim C3 (code bug): on a concrete successful password login the
returned refresh token carries the empty string as its `sessionId` claim —
`login` signs the refresh token BEFORE creating the session (its own
comment reads "Will set sessionId after creating session") and never
rebinds it — so the token is not bound to the new session's id `"oid1"`,
and a later refresh call presenting that token fails with "Session not
found". The Google OAuth flows implement the intended create-then-bind. -/
theorem claim_C3_refresh_token_unbound :
    (login "alice@example.com" "Secret123" dinfoC3 0 worldC3).1 =
      Except.ok ⟨signAccessToken "u1" "alice@example.com" "oid1" 0,
        Jwt.refreshSigned ⟨"u1", "", refreshTokenExpiryMs⟩, "u1", "oid1", "oid0"⟩ ∧
    ("" : String) ≠ "oid1" ∧
    (refreshAccessToken (Jwt.refreshSigned ⟨"u1", "", refreshTokenExpiryMs⟩) 0
        (login "alice@example.com" "Secret123" dinfoC3 0 worldC3).2).1 =
      Except.error (AppErr.authentication "Session not found") := by
  exact ⟨rfl, by decide, rfl⟩

/-- `updateFirst` with the replacing element keeps a matching element in the
list. -/
theorem any_updateFirst_self (ps : List ProviderRec) (p : ProviderRec)
    (h : ps.any (fun q => q.provider = p.provider) = true) :
    (updateFirst (fun q => q.provider = p.provider) (fun _ => p) ps).any
      (fun q => q.provider = p.provider) = true := by
  induction ps with
  | nil => simp at h
  | cons x xs ih =>
      unfold updateFirst
      cases hx : decide (x.provider = p.provider) with
      | true =>
          simp only [hx, if_true]
          simp [List.any_cons]
      | false =>
          simp only [hx, Bool.false_eq_true, if_false]
          rw [List.any_cons, Bool.or_eq_true]
          rw [List.any_cons, Bool.or_eq_true] at h
          rcases h with h | h
          · rw [hx] at h
            exact absurd h (by simp)
          · exact Or.inr (ih h)

/-- After `addProvider p` the account always has a link for `p.provider`. -/
theorem addProvider_hasProvider (a : AccountRec) (p : ProviderRec) :
    (a.addProvider p).hasProvider p.provider = true := by
  unfold AccountRec.addProvider AccountRec.hasProvider
  by_cases hg : a.providers.any (fun q => q.provider = p.provider) = true
  · simp only [hg, if_true]
    exact any_updateFirst_self a.providers p hg
  · simp only [hg]
    simp at hg
    simp [List.any_append]

/-- Any successful `performGoogleLogin` result is bound to the given
account's user. -/
theorem performGoogleLogin_ok_userId (now : Time) (dinfo : DeviceInfo) (aid : String)
    (account : AccountRec) (w : World) (res : AuthTokensResult) (w2 : World)
    (h : performGoogleLogin now dinfo aid account w = (Except.ok res, w2)) :
    res.userId = account.userId := by
  simp only [performGoogleLogin] at h
  split at h
  · simp at h
  split at h
  · simp at h
  split at h
  · simp at h
  split at h
  · simp at h
  have hfst := congrArg Prod.fst h
  simp only [Prod.fst] at hfst
  have hok := Except.ok.inj hfst
  rw [← hok]
  by_cases hg : account.providers.any (fun p => p.provider = "google") = true
  · simp [hg]
  · simp [hg]

/-- The account record `createAccountFromGoogle` writes (used to state C5's
creation case). -/
def googleCreatedAccount (g : GoogleUser) (now : Time) (uid : String) : AccountRec :=
  { userId := uid
    email := strToLower g.email
    password := none
    isActive := true
    isEmailVerified := g.emailVerified
    isPhoneVerified := false
    banType := none
    banEndAt := none
    loginAttempts := 0
    lastAttemptAt := none
    lockUntil := none
    providers := [createProviderObject g now]
    emailVerificationToken := none
    emailVerificationTokenExpiresAt := none
    resetToken := none
    resetTokenExpiresAt := none }

/-- Claim C5: for every verified Google identity the sign-in decision on
`(existingLinkForProvider, existingAccountForEmail, accountHasPassword)` is
mutually exclusive and exhaustive: a matching provider link runs the login
path on the linked account (whose successful result is bound to that
account's user); no link and no email match creates a fresh account holding
exactly the one provider link, no password, and a refresh token bound to
the new session; no link but an email match without a password auto-links
the provider (the google link is then present) and logs in on the updated
account; no link but an email match with a password refuses with the
distinct error `EMAIL_EXISTS_PASSWORD` and leaves the store unmodified. -/
theorem claim_C5_linking_decision_tree (g : GoogleUser) (dinfo : DeviceInfo)
    (now : Time) (w : World) :
    (∀ aid a, findAccountByProviderLink w.accounts "google" g.sub = some (aid, a) →
      loginWithGoogle g dinfo now w = performGoogleLogin now dinfo aid a w ∧
      (∀ res w2, performGoogleLogin now dinfo aid a w = (Except.ok res, w2) →
        res.userId = a.userId)) ∧
    (findAccountByProviderLink w.accounts "google" g.sub = none →
      findAccountByEmail w.accounts g.email = none →
      loginWithGoogle g dinfo now w = createAccountFromGoogle g dinfo now w ∧
      (∃ res, (loginWithGoogle g dinfo now w).1 = Except.ok res ∧
        res.refreshToken = signRefreshToken res.userId res.sessionId now ∧
        lookupS (loginWithGoogle g dinfo now w).2.accounts
            ("oid" ++ toString (w.nextId + 1)) =
          some (googleCreatedAccount g now ("oid" ++ toString w.nextId)) ∧
        res.userId = "oid" ++ toString w.nextId)) ∧
    (∀ aid a, findAccountByProviderLink w.accounts "google" g.sub = none →
      findAccountByEmail w.accounts g.email = some (aid, a) →
      a.hasPassword = false →
      loginWithGoogle g dinfo now w =
        performGoogleLogin now dinfo aid (a.addProvider (createProviderObject g now))
          { w with accounts := setS w.accounts aid (a.addProvider (createProviderObject g now)) } ∧
      (a.addProvider (createProviderObject g now)).hasProvider "google" = true) ∧
    (∀ aid a, findAccountByProviderLink w.accounts "google" g.sub = none →
      findAccountByEmail w.accounts g.email = some (aid, a) →
      a.hasPassword = true →
      loginWithGoogle g dinfo now w =
        (Except.error (AppErr.authentication "EMAIL_EXISTS_PASSWORD"), w)) := by
  refine ⟨?_, ?_, ?_, ?_⟩
  · intro aid a h1
    refine ⟨by simp [loginWithGoogle, h1], ?_⟩
    intro res w2 h2
    exact performGoogleLogin_ok_userId now dinfo aid a w res w2 h2
  · intro h1 h2
    have hroute : loginWithGoogle g dinfo now w = createAccountFromGoogle g dinfo now w := by
      simp [loginWithGoogle, h1, h2]
    refine ⟨hroute, ?_⟩
    rw [hroute]
    refine ⟨⟨signAccessToken ("oid" ++ toString w.nextId) (strToLower g.email)
        ("oid" ++ toString (w.nextId + 3)) now,
      signRefreshToken ("oid" ++ toString w.nextId) ("oid" ++ toString (w.nextId + 3)) now,
      "oid" ++ toString w.nextId, "oid" ++ toString (w.nextId + 3),
      "oid" ++ toString (w.nextId + 2)⟩, rfl, rfl, ?_, rfl⟩
    have hacc : (createAccountFromGoogle g dinfo now w).2.accounts =
        ("oid" ++ toString (w.nextId + 1),
          googleCreatedAccount g now ("oid" ++ toString w.nextId)) :: w.accounts := rfl
    rw [hacc]
    simp [lookupS]
  · intro aid a h1 h2 hp
    refine ⟨by simp [loginWithGoogle, h1, h2, hp], ?_⟩
    have := addProvider_hasProvider a (createProviderObject g now)
    simpa [createProviderObject] using this
  · intro aid a h1 h2 hp
    simp [loginWithGoogle, h1, h2, hp]

def gEx : GoogleUser := ⟨"gsub", "eve@example.com", true, "Eve", "Jones"⟩

def acctC5A : AccountRec :=
  { baseAccount "u5" "eve@example.com" none with
      providers := [⟨"google", "gsub", "eve@example.com", 0, none⟩] }

def worldC5A : World := ⟨[("u5", ⟨"Eve", "Jones", "eve"⟩)], [("a1", acctC5A)], [], [], 0⟩

def worldC5B : World := ⟨[], [], [], [], 0⟩

def acctC5C : AccountRec := baseAccount "u6" "eve@example.com" none

def worldC5C : World := ⟨[("u6", ⟨"Eve", "Jones", "eve"⟩)], [("a1", acctC5C)], [], [], 0⟩

def acctC5D : AccountRec := baseAccount "u7" "eve@example.com" (some (argonHash "Secret123"))

def worldC5D : World := ⟨[], [("a1", acctC5D)], [], [], 0⟩

/-- Witness for C5: one concrete store per decision-tree case. -/
theorem claim_C5_witness :
    loginWithGoogle gEx dinfoC3 0 worldC5A = performGoogleLogin 0 dinfoC3 "a1" acctC5A worldC5A ∧
    loginWithGoogle gEx dinfoC3 0 worldC5B = createAccountFromGoogle gEx dinfoC3 0 worldC5B ∧
    loginWithGoogle gEx dinfoC3 0 worldC5C =
      performGoogleLogin 0 dinfoC3 "a1" (acctC5C.addProvider (createProviderObject gEx 0))
        { worldC5C with accounts := setS worldC5C.accounts "a1" (acctC5C.addProvider (createProviderObject gEx 0)) } ∧
    loginWithGoogle gEx dinfoC3 0 worldC5D =
      (Except.error (AppErr.authentication "EMAIL_EXISTS_PASSWORD"), worldC5D) := by
  have tA := claim_C5_linking_decision_tree gEx dinfoC3 0 worldC5A
  have tB := claim_C5_linking_decision_tree gEx dinfoC3 0 worldC5B
  have tC := claim_C5_linking_decision_tree gEx dinfoC3 0 worldC5C
  have tD := claim_C5_linking_decision_tree gEx dinfoC3 0 worldC5D
  exact ⟨(tA.1 "a1" acctC5A rfl).1, (tB.2.1 rfl rfl).1,
    (tC.2.2.1 "a1" acctC5C rfl rfl rfl).1, tD.2.2.2 "a1" acctC5D rfl rfl rfl⟩

/-! Field-preservation and evaluation lemmas for the lockout machinery. -/

theorem isBanned_none (a : AccountRec) (now : Time) (h : a.banType = none) :
    a.isBanned now = false := by
  unfold AccountRec.isBanned
  rw [h]

theorem isLocked_none (a : AccountRec) (now : Time) (h : a.lockUntil = none) :
    a.isLocked now = false := by
  unfold AccountRec.isLocked
  rw [h]

theorem isLocked_some (a : AccountRec) (now e : Time) (h : a.lockUntil = some e) :
    a.isLocked now = decide (now < e) := by
  unfold AccountRec.isLocked
  rw [h]

theorem increment_email (a : AccountRec) (t : Time) :
    (a.incrementLoginAttempts t).email = a.email := by
  by_cases h : maxLoginAttempts ≤ a.loginAttempts + 1
  · simp [AccountRec.incrementLoginAttempts, h]
  · simp [AccountRec.incrementLoginAttempts, h]

theorem increment_userId (a : AccountRec) (t : Time) :
    (a.incrementLoginAttempts t).userId = a.userId := by
  by_cases h : maxLoginAttempts ≤ a.loginAttempts + 1
  · simp [AccountRec.incrementLoginAttempts, h]
  · simp [AccountRec.incrementLoginAttempts, h]

theorem increment_isActive (a : AccountRec) (t : Time) :
    (a.incrementLoginAttempts t).isActive = a.isActive := by
  by_cases h : maxLoginAttempts ≤ a.loginAttempts + 1
  · simp [AccountRec.incrementLoginAttempts, h]
  · simp [AccountRec.incrementLoginAttempts, h]

theorem increment_banType (a : AccountRec) (t : Time) :
    (a.incrementLoginAttempts t).banType = a.banType := by
  by_cases h : maxLoginAttempts ≤ a.loginAttempts + 1
  · simp [AccountRec.incrementLoginAttempts, h]
  · simp [AccountRec.incrementLoginAttempts, h]

theorem increment_password (a : AccountRec) (t : Time) :
    (a.incrementLoginAttempts t).password = a.password := by
  by_cases h : maxLoginAttempts ≤ a.loginAttempts + 1
  · simp [AccountRec.incrementLoginAttempts, h]
  · simp [AccountRec.incrementLoginAttempts, h]

theorem increment_loginAttempts (a : AccountRec) (t : Time) :
    (a.incrementLoginAttempts t).loginAttempts = a.loginAttempts + 1 := by
  by_cases h : maxLoginAttempts ≤ a.loginAttempts + 1
  · simp [AccountRec.incrementLoginAttempts, h]
  · simp [AccountRec.incrementLoginAttempts, h]

theorem increment_lockUntil_below (a : AccountRec) (t : Time)
    (h : a.loginAttempts + 1 < maxLoginAttempts) :
    (a.incrementLoginAttempts t).lockUntil = a.lockUntil := by
  have hn : ¬ (maxLoginAttempts ≤ a.loginAttempts + 1) := by omega
  simp [AccountRec.incrementLoginAttempts, hn]

theorem increment_lockUntil_hit (a : AccountRec) (t : Time)
    (h : maxLoginAttempts ≤ a.loginAttempts + 1) :
    (a.incrementLoginAttempts t).lockUntil =
      some (t + lockDurationMinutes * 60 * 1000) := by
  simp [AccountRec.incrementLoginAttempts, h]

/-- One failed password attempt on a single-account store: the call answers
`Invalid credentials` and persists the incremented attempt counter. -/
theorem login_fail_step (aid : String) (a : AccountRec) (email wrong : String)
    (dinfo : DeviceInfo) (t : Time) (udb : List (String × UserRec))
    (ddb : List (String × DeviceRec)) (sdb : List (String × SessionRec)) (n : Nat)
    (ph : String)
    (hemail : a.email = strToLower email)
    (hactive : a.isActive = true)
    (hban : a.isBanned t = false)
    (hlock : a.isLocked t = false)
    (hpw : a.password = some ph)
    (hv : verifyPassword ph wrong = false) :
    login email wrong dinfo t ⟨udb, [(aid, a)], ddb, sdb, n⟩ =
      (Except.error (AppErr.authentication "Invalid credentials"),
        ⟨udb, [(aid, a.incrementLoginAttempts t)], ddb, sdb, n⟩) := by
  unfold login
  simp [findAccountByEmail, hemail, hactive, hban, hlock, hpw, hv, setS]

/-- A login attempt on a locked single-account store fails regardless of
the supplied password and leaves the store unchanged. -/
theorem login_locked_step (aid : String) (a : AccountRec) (email pw : String)
    (dinfo : DeviceInfo) (t : Time) (udb : List (String × UserRec))
    (ddb : List (String × DeviceRec)) (sdb : List (String × SessionRec)) (n : Nat)
    (hemail : a.email = strToLower email)
    (hactive : a.isActive = true)
    (hban : a.isBanned t = false)
    (hlock : a.isLocked t = true) :
    login email pw dinfo t ⟨udb, [(aid, a)], ddb, sdb, n⟩ =
      (Except.error (AppErr.authentication "Account is locked due to multiple failed attempts"),
        ⟨udb, [(aid, a)], ddb, sdb, n⟩) := by
  unfold login
  simp [findAccountByEmail, hemail, hactive, hban, hlock]

/-- A successful password attempt on a single-account store: the call
answers a token pair and persists the reset attempt counters. -/
theorem login_success_step (aid : String) (a : AccountRec) (email pw : String)
    (dinfo : DeviceInfo) (t : Time) (udb : List (String × UserRec))
    (ddb : List (String × DeviceRec)) (sdb : List (String × SessionRec)) (n : Nat)
    (ph : String) (u : UserRec)
    (hemail : a.email = strToLower email)
    (hactive : a.isActive = true)
    (hban : a.isBanned t = false)
    (hlock : a.isLocked t = false)
    (hpw : a.password = some ph)
    (hv : verifyPassword ph pw = true)
    (hu : lookupS udb a.userId = some u) :
    (∃ res, (login email pw dinfo t ⟨udb, [(aid, a)], ddb, sdb, n⟩).1 = Except.ok res) ∧
    lookupS (login email pw dinfo t ⟨udb, [(aid, a)], ddb, sdb, n⟩).2.accounts aid =
      some a.resetLoginAttempts := by
  unfold login
  simp [findAccountByEmail, hemail, hactive, hban, hlock, hpw, hv, setS,
    World.freshId, resolveDevice_users, resolveDevice_accounts, hu, lookupS]

/-- The invariant carried across failed attempts below the lockout
threshold: right email, active, unbanned, the password in place, counter at
`k`, not locked. -/
def cleanLoginState (a : AccountRec) (email pw : String) (k : Nat) : Prop :=
  a.email = strToLower email ∧ a.isActive = true ∧ a.banType = none ∧
  a.password = some (argonHash pw) ∧ a.loginAttempts = k ∧ a.lockUntil = none

theorem cleanLoginState_step (a : AccountRec) (email pw : String) (k : Nat) (t : Time)
    (h : cleanLoginState a email pw k) (hk : k + 1 < maxLoginAttempts) :
    cleanLoginState (a.incrementLoginAttempts t) email pw (k + 1) := by
  obtain ⟨h1, h2, h3, h4, h5, h6⟩ := h
  refine ⟨?_, ?_, ?_, ?_, ?_, ?_⟩
  · rw [increment_email]
    exact h1
  · rw [increment_isActive]
    exact h2
  · rw [increment_banType]
    exact h3
  · rw [increment_password]
    exact h4
  · rw [increment_loginAttempts, h5]
  · rw [increment_lockUntil_below a t (by rw [h5]; exact hk)]
    exact h6

theorem login_fail_from_clean (aid : String) (a : AccountRec) (email pw wrong : String)
    (dinfo : DeviceInfo) (t : Time) (udb : List (String × UserRec))
    (ddb : List (String × DeviceRec)) (sdb : List (String × SessionRec)) (n : Nat)
    (k : Nat) (h : cleanLoginState a email pw k) (hw : wrong ≠ pw) :
    login email wrong dinfo t ⟨udb, [(aid, a)], ddb, sdb, n⟩ =
      (Except.error (AppErr.authentication "Invalid credentials"),
        ⟨udb, [(aid, a.incrementLoginAttempts t)], ddb, sdb, n⟩) :=
  login_fail_step aid a email wrong dinfo t udb ddb sdb n (argonHash pw) h.1 h.2.1
    (isBanned_none a t h.2.2.1) (isLocked_none a t h.2.2.2.2.2) h.2.2.2.1
    (verifyPassword_hash_ne pw wrong hw)

/-- Claim C4: starting from an unlocked, active account with a password and
a clean counter, five consecutive wrong-password logins each fail with
`Invalid credentials`, incrementing the persisted counter, and the fifth
sets `lockUntil = t5 + 30 minutes` with `loginAttempts = 5`; a sixth
attempt while the lock is live fails with the lockout message even though
the supplied password is correct, changing nothing; once the lock has
expired, a correct-password login succeeds and persists
`loginAttempts = 0` and `lockUntil = none`. -/
theorem claim_C4_lockout (aid : String) (a : AccountRec) (email pw wrong : String)
    (dinfo : DeviceInfo) (udb : List (String × UserRec))
    (ddb : List (String × DeviceRec)) (sdb : List (String × SessionRec)) (n : Nat)
    (u : UserRec) (t1 t2 t3 t4 t5 t6 t7 : Time)
    (hemail : a.email = strToLower email)
    (hactive : a.isActive = true)
    (hban : a.banType = none)
    (hlock0 : a.lockUntil = none)
    (hcount : a.loginAttempts = 0)
    (hpw : a.password = some (argonHash pw))
    (hpwne : pw ≠ "")
    (hwrongne : wrong ≠ pw)
    (hu : lookupS udb a.userId = some u)
    (h6 : t6 < t5 + lockDurationMinutes * 60 * 1000)
    (h7 : t5 + lockDurationMinutes * 60 * 1000 ≤ t7) :
    login email wrong dinfo t1 ⟨udb, [(aid, a)], ddb, sdb, n⟩ =
      (Except.error (AppErr.authentication "Invalid credentials"),
        ⟨udb, [(aid, a.incrementLoginAttempts t1)], ddb, sdb, n⟩) ∧
    login email wrong dinfo t2 ⟨udb, [(aid, a.incrementLoginAttempts t1)], ddb, sdb, n⟩ =
      (Except.error (AppErr.authentication "Invalid credentials"),
        ⟨udb, [(aid, (a.incrementLoginAttempts t1).incrementLoginAttempts t2)], ddb, sdb, n⟩) ∧
    login email wrong dinfo t3
        ⟨udb, [(aid, (a.incrementLoginAttempts t1).incrementLoginAttempts t2)], ddb, sdb, n⟩ =
      (Except.error (AppErr.authentication "Invalid credentials"),
        ⟨udb, [(aid, ((a.incrementLoginAttempts t1).incrementLoginAttempts
          t2).incrementLoginAttempts t3)], ddb, sdb, n⟩) ∧
    login email wrong dinfo t4
        ⟨udb, [(aid, ((a.incrementLoginAttempts t1).incrementLoginAttempts
          t2).incrementLoginAttempts t3)], ddb, sdb, n⟩ =
      (Except.error (AppErr.authentication "Invalid credentials"),
        ⟨udb, [(aid, (((a.incrementLoginAttempts t1).incrementLoginAttempts
          t2).incrementLoginAttempts t3).incrementLoginAttempts t4)], ddb, sdb, n⟩) ∧
    login email wrong dinfo t5
        ⟨udb, [(aid, (((a.incrementLoginAttempts t1).incrementLoginAttempts
          t2).incrementLoginAttempts t3).incrementLoginAttempts t4)], ddb, sdb, n⟩ =
      (Except.error (AppErr.authentication "Invalid credentials"),
        ⟨udb, [(aid, ((((a.incrementLoginAttempts t1).incrementLoginAttempts
          t2).incrementLoginAttempts t3).incrementLoginAttempts
          t4).incrementLoginAttempts t5)], ddb, sdb, n⟩) ∧
    (((((a.incrementLoginAttempts t1).incrementLoginAttempts t2).incrementLoginAttempts
        t3).incrementLoginAttempts t4).incrementLoginAttempts t5).loginAttempts = 5 ∧
    (((((a.incrementLoginAttempts t1).incrementLoginAttempts t2).incrementLoginAttempts
        t3).incrementLoginAttempts t4).incrementLoginAttempts t5).lockUntil =
      some (t5 + lockDurationMinutes * 60 * 1000) ∧
    login email pw dinfo t6
        ⟨udb, [(aid, ((((a.incrementLoginAttempts t1).incrementLoginAttempts
          t2).incrementLoginAttempts t3).incrementLoginAttempts
          t4).incrementLoginAttempts t5)], ddb, sdb, n⟩ =
      (Except.error (AppErr.authentication "Account is locked due to multiple failed attempts"),
        ⟨udb, [(aid, ((((a.incrementLoginAttempts t1).incrementLoginAttempts
          t2).incrementLoginAttempts t3).incrementLoginAttempts
          t4).incrementLoginAttempts t5)], ddb, sdb, n⟩) ∧
    (∃ res, (login email pw dinfo t7
        ⟨udb, [(aid, ((((a.incrementLoginAttempts t1).incrementLoginAttempts
          t2).incrementLoginAttempts t3).incrementLoginAttempts
          t4).incrementLoginAttempts t5)], ddb, sdb, n⟩).1 = Except.ok res) ∧
    lookupS (login email pw dinfo t7
        ⟨udb, [(aid, ((((a.incrementLoginAttempts t1).incrementLoginAttempts
          t2).incrementLoginAttempts t3).incrementLoginAttempts
          t4).incrementLoginAttempts t5)], ddb, sdb, n⟩).2.accounts aid =
      some (((((a.incrementLoginAttempts t1).incrementLoginAttempts
        t2).incrementLoginAttempts t3).incrementLoginAttempts
        t4).incrementLoginAttempts t5).resetLoginAttempts ∧
    (((((a.incrementLoginAttempts t1).incrementLoginAttempts t2).incrementLoginAttempts
        t3).incrementLoginAttempts t4).incrementLoginAttempts
        t5).resetLoginAttempts.loginAttempts = 0 ∧
    (((((a.incrementLoginAttempts t1).incrementLoginAttempts t2).incrementLoginAttempts
        t3).incrementLoginAttempts t4).incrementLoginAttempts
        t5).resetLoginAttempts.lockUntil = none := by
  have c0 : cleanLoginState a email pw 0 := ⟨hemail, hactive, hban, hpw, hcount, hlock0⟩
  have c1 := cleanLoginState_step a email pw 0 t1 c0 (by decide)
  have c2 := cleanLoginState_step _ email pw 1 t2 c1 (by decide)
  have c3 := cleanLoginState_step _ email pw 2 t3 c2 (by decide)
  have c4 := cleanLoginState_step _ email pw 3 t4 c3 (by decide)
  have a5count : (((((a.incrementLoginAttempts t1).incrementLoginAttempts
      t2).incrementLoginAttempts t3).incrementLoginAttempts t4).incrementLoginAttempts
      t5).loginAttempts = 5 := by
    rw [increment_loginAttempts, c4.2.2.2.2.1]
  have a5lock : (((((a.incrementLoginAttempts t1).incrementLoginAttempts
      t2).incrementLoginAttempts t3).incrementLoginAttempts t4).incrementLoginAttempts
      t5).lockUntil = some (t5 + lockDurationMinutes * 60 * 1000) :=
    increment_lockUntil_hit _ t5 (by rw [c4.2.2.2.2.1]; decide)
  have a5email : (((((a.incrementLoginAttempts t1).incrementLoginAttempts
      t2).incrementLoginAttempts t3).incrementLoginAttempts t4).incrementLoginAttempts
      t5).email = strToLower email := by
    rw [increment_email]
    exact c4.1
  have a5active : (((((a.incrementLoginAttempts t1).incrementLoginAttempts
      t2).incrementLoginAttempts t3).incrementLoginAttempts t4).incrementLoginAttempts
      t5).isActive = true := by
    rw [increment_isActive]
    exact c4.2.1
  have a5ban : (((((a.incrementLoginAttempts t1).incrementLoginAttempts
      t2).incrementLoginAttempts t3).incrementLoginAttempts t4).incrementLoginAttempts
      t5).banType = none := by
    rw [increment_banType]
    exact c4.2.2.1
  have a5pw : (((((a.incrementLoginAttempts t1).incrementLoginAttempts
      t2).incrementLoginAttempts t3).incrementLoginAttempts t4).incrementLoginAttempts
      t5).password = some (argonHash pw) := by
    rw [increment_password]
    exact c4.2.2.2.1
  have a5uid : (((((a.incrementLoginAttempts t1).incrementLoginAttempts
      t2).incrementLoginAttempts t3).incrementLoginAttempts t4).incrementLoginAttempts
      t5).userId = a.userId := by
    rw [increment_userId, increment_userId, increment_userId, increment_userId,
      increment_userId]
  have hlocked6 : (((((a.incrementLoginAttempts t1).incrementLoginAttempts
      t2).incrementLoginAttempts t3).incrementLoginAttempts t4).incrementLoginAttempts
      t5).isLocked t6 = true := by
    rw [isLocked_some _ _ _ a5lock]
    exact decide_eq_true h6
  have hlocked7 : (((((a.incrementLoginAttempts t1).incrementLoginAttempts
      t2).incrementLoginAttempts t3).incrementLoginAttempts t4).incrementLoginAttempts
      t5).isLocked t7 = false := by
    rw [isLocked_some _ _ _ a5lock]
    exact decide_eq_false (Nat.not_lt.mpr h7)
  have s7 := login_success_step aid _ email pw dinfo t7 udb ddb sdb n (argonHash pw) u
    a5email a5active (isBanned_none _ t7 a5ban) hlocked7 a5pw
    (verifyPassword_hash_self pw hpwne) (by rw [a5uid]; exact hu)
  refine ⟨login_fail_from_clean aid a email pw wrong dinfo t1 udb ddb sdb n 0 c0 hwrongne,
    login_fail_from_clean aid _ email pw wrong dinfo t2 udb ddb sdb n 1 c1 hwrongne,
    login_fail_from_clean aid _ email pw wrong dinfo t3 udb ddb sdb n 2 c2 hwrongne,
    login_fail_from_clean aid _ email pw wrong dinfo t4 udb ddb sdb n 3 c3 hwrongne,
    login_fail_from_clean aid _ email pw wrong dinfo t5 udb ddb sdb n 4 c4 hwrongne,
    a5count, a5lock,
    login_locked_step aid _ email pw dinfo t6 udb ddb sdb n a5email a5active
      (isBanned_none _ t6 a5ban) hlocked6,
    s7.1, s7.2, rfl, rfl⟩

/-- The fixture account after five failed attempts at time 0. -/
def acctC4a5 : AccountRec :=
  ((((acctC3.incrementLoginAttempts 0).incrementLoginAttempts 0).incrementLoginAttempts
    0).incrementLoginAttempts 0).incrementLoginAttempts 0

def worldC4locked : World := ⟨[("u1", userC3)], [("a1", acctC4a5)], [], [], 0⟩

/-- Witness for C4 on a concrete store: the counter reaches 5 and the lock
is set; the locked login with the correct password still fails; after the
lock expires the correct password succeeds and the counters reset. -/
theorem claim_C4_witness :
    acctC4a5.loginAttempts = 5 ∧
    acctC4a5.lockUntil = some (0 + lockDurationMinutes * 60 * 1000) ∧
    login "alice@example.com" "Secret123" dinfoC3 1 worldC4locked =
      (Except.error (AppErr.authentication "Account is locked due to multiple failed attempts"),
        worldC4locked) ∧
    (∃ res, (login "alice@example.com" "Secret123" dinfoC3 1800000 worldC4locked).1 =
      Except.ok res) ∧
    acctC4a5.resetLoginAttempts.loginAttempts = 0 ∧
    acctC4a5.resetLoginAttempts.lockUntil = none := by
  have t := claim_C4_lockout "a1" acctC3 "alice@example.com" "Secret123" "Secret124"
    dinfoC3 [("u1", userC3)] [] [] 0 userC3 0 0 0 0 0 1 1800000
    rfl rfl rfl rfl rfl rfl (by decide) (by decide) rfl (by decide) (by decide)
  exact ⟨t.2.2.2.2.2.1, t.2.2.2.2.2.2.1, t.2.2.2.2.2.2.2.1, t.2.2.2.2.2.2.2.2.1,
    t.2.2.2.2.2.2.2.2.2.2.1, t.2.2.2.2.2.2.2.2.2.2.2⟩

end MyBackend
